import Mathlib

/-!
Verification of the Windows-Itanium CRT bootstrap subsystem.

This development gives a shallow embedding of the CRT bootstrap code:
the runtime pseudo-relocation processor (crt_windows_pseudo_reloc.cpp),
the security-cookie module (crt_windows_security.cpp), the CRT
initialization orchestrator (crt_windows_init.cpp), the DLL entry point
(crt_windows.cpp) and the TLS directory (crt_windows_tls.cpp), and
proves the spec's testable properties about it.

Modelling conventions:
- Machine memory is a byte map `Nat → Nat` (each byte read is taken
  modulo 256); multi-byte values are little-endian, as on every Windows
  target this CRT supports (x86, x64, ARM, ARM64 are all little-endian).
- The embedding models the 64-bit configuration (`CRT_ARCH_X64` /
  `CRT_ARCH_ARM64`): pointers are 8 bytes, `CookieType` is `uint64_t`.
- Machine integers are `Nat`/`Int` with explicit reductions modulo
  2^width where the C++ arithmetic wraps.
- The Windows virtual-memory primitives `VirtualQuery`/`VirtualProtect`
  are modelled as a total per-address protection map `Nat → Nat`
  (holding `PAGE_*` constants); `VirtualProtect` always succeeds.
- Calls that terminate the process (`__fastfail` via
  `crt::fatalErrorEarly`, `_amsg_exit` via `crt::fatalError`) are
  modelled as explicit result constructors, since no code runs after
  them.
-/

/-! ### Byte-addressed memory -/

/-- Byte-addressed memory: address to byte value. Reads reduce mod 256. -/
def Mem : Type := Nat → Nat

/-- Little-endian load of `n` bytes starting at address `a`. -/
def loadLE (m : Mem) (a : Nat) : Nat → Nat
  | 0 => 0
  | Nat.succ k => m a % 256 + 256 * loadLE m (a + 1) k

/-- Little-endian store of the `n` low-order bytes of `v` at address `a`. -/
def storeLE (m : Mem) (a : Nat) : Nat → Nat → Mem
  | 0, _ => m
  | Nat.succ k, v =>
    storeLE (fun x => if x = a then v % 256 else m x) (a + 1) k (v / 256)

/-- Reinterpret an unsigned byte as `int8_t` (two's complement). -/
def toSigned8 (v : Nat) : Int :=
  if v < 128 then (v : Int) else (v : Int) - 256

/-- Reinterpret an unsigned 16-bit value as `int16_t` (two's complement). -/
def toSigned16 (v : Nat) : Int :=
  if v < 32768 then (v : Int) else (v : Int) - 65536

/-- Reinterpret an unsigned 32-bit value as `int32_t` (two's complement). -/
def toSigned32 (v : Nat) : Int :=
  if v < 2147483648 then (v : Int) else (v : Int) - 4294967296

/-- Reinterpret an unsigned 64-bit value as `int64_t` (two's complement). -/
def toSigned64 (v : Nat) : Int :=
  if v < 9223372036854775808 then (v : Int) else (v : Int) - 18446744073709551616

/-- `INT32_MIN`. -/
def int32Min : Int := -2147483648

/-- `INT32_MAX`. -/
def int32Max : Int := 2147483647

/-! ### Constants from crt_windows_internal.h -/

/-- `crt::kPageReadonly` (`PAGE_READONLY`). -/
def kPageReadonly : Nat := 0x02

/-- `crt::kPageReadwrite` (`PAGE_READWRITE`). -/
def kPageReadwrite : Nat := 0x04

/-- `crt::kPageExecute` (`PAGE_EXECUTE`). -/
def kPageExecute : Nat := 0x10

/-- `crt::kPageExecuteRead` (`PAGE_EXECUTE_READ`). -/
def kPageExecuteRead : Nat := 0x20

/-- `crt::kPageExecuteReadwrite` (`PAGE_EXECUTE_READWRITE`). -/
def kPageExecuteReadwrite : Nat := 0x40

/-- `crt::FastFailStackCookieCheckFailure`, the `__fastfail` code used by
the CRT both for cookie mismatches and for `fatalErrorEarly`. -/
def FastFailStackCookieCheckFailure : Nat := 2

/-- `crt::kDllProcessAttach`. -/
def kDllProcessAttach : Nat := 1

/-- `crt::kDllThreadAttach`. -/
def kDllThreadAttach : Nat := 2

/-- `crt::kDllThreadDetach`. -/
def kDllThreadDetach : Nat := 3

/-- `crt::kDllProcessDetach`. -/
def kDllProcessDetach : Nat := 0

/-! ### Pseudo-relocation data structures (crt_windows_pseudo_reloc.cpp) -/

/-- V1 relocation entry (legacy format): `*(base + target) += addend`,
always a 32-bit DWORD fixup. Mirrors `struct PseudoRelocV1`. -/
structure PseudoRelocV1 where
  addend : Nat
  target : Nat
  deriving Repr, DecidableEq

/-- V2 relocation entry: `*(base + target) += *(base + sym) - (base + sym)`,
with the width encoded in the low byte of `flags`.
Mirrors `struct PseudoRelocV2`. -/
structure PseudoRelocV2 where
  sym : Nat
  target : Nat
  flags : Nat
  deriving Repr, DecidableEq

/-- `kRelocFlagSize8`. -/
def kRelocFlagSize8 : Nat := 8

/-- `kRelocFlagSize16`. -/
def kRelocFlagSize16 : Nat := 16

/-- `kRelocFlagSize32`. -/
def kRelocFlagSize32 : Nat := 32

/-- `kRelocFlagSize64`. -/
def kRelocFlagSize64 : Nat := 64

/-- `kRelocFlagSizeMask`. -/
def kRelocFlagSizeMask : Nat := 0xFF

/-- `kMaxModifiedSections`: capacity of the modified-section tracking table. -/
def kMaxModifiedSections : Nat := 64

/-- One record of the modified-section tracking table
(`struct ModifiedSection`): a region whose protection was changed,
with the protection to restore. -/
structure ModifiedSection where
  address : Nat
  size : Nat
  oldProtect : Nat
  deriving Repr, DecidableEq

/-- The mutable state touched by the pseudo-relocation pass: process
memory, the per-address protection map, and the modified-section
tracking table `g_modifiedSections` (its length is
`g_numModifiedSections`; the C++ array is append-only up to the
capacity, so a list is an exact model). -/
structure RelocState where
  mem : Mem
  prot : Nat → Nat
  sections : List ModifiedSection

/-- How a fatal path terminates the process: `__fastfail` (used by
`crt::fatalErrorEarly`) or `_amsg_exit` (used by `crt::fatalError`). -/
inductive TermKind where
  | fastfail
  | amsgExit
  deriving Repr, DecidableEq

/-- The diagnostic message passed to `crt::fatalErrorEarly`, as an
enumeration: `tooManyModifiedSections` stands for the string
"Pseudo-reloc: too many modified sections (limit 64)" and
`relocOverflow32` for "Pseudo-reloc: 32-bit relocation overflow.
Address delta exceeds INT32 range.". -/
inductive FatalMsg where
  | tooManyModifiedSections
  | relocOverflow32
  deriving Repr, DecidableEq

/-- Result of a step of the relocation machinery: either a boolean
"success" return together with the updated state, or process
termination (which the C++ performs by never returning). -/
inductive RelocResult where
  | ok (success : Bool) (s : RelocState)
  | fatal (kind : TermKind) (msg : FatalMsg)

/-- Set the protection of every address in `[a, a + n)` to `v`:
the effect of `VirtualProtect(a, n, v, &old)` on the protection map. -/
def protectRange (p : Nat → Nat) (a n v : Nat) : Nat → Nat :=
  fun x => if a ≤ x ∧ x < a + n then v else p x

/-- `getWritableProtection`: `PAGE_EXECUTE_READWRITE` for executable
regions, `PAGE_READWRITE` otherwise. -/
def getWritableProtection (currentProtect : Nat) : Nat :=
  if currentProtect &&& (kPageExecute ||| kPageExecuteRead |||
      kPageExecuteReadwrite) ≠ 0
  then kPageExecuteReadwrite else kPageReadwrite

/-- Does tracked section `sec` already cover the region `[addr, addr+size)`?
This is the containment test in `makeWritable`'s first loop. -/
def coveredBy (sec : ModifiedSection) (addr size : Nat) : Bool :=
  decide (sec.address ≤ addr) && decide (addr + size ≤ sec.address + sec.size)

/-- `makeWritable(addr, size)`: skip if an existing tracked entry covers
the region; abort via `fatalErrorEarly` if the tracking table is full;
otherwise query the current protection, switch the region to the
matching writable protection and append a tracking record holding the
old protection. `VirtualQuery`/`VirtualProtect` are modelled by the
total protection map, so the C++ `return false` on `VirtualProtect`
failure does not arise. -/
def makeWritable (addr size : Nat) (s : RelocState) : RelocResult :=
  if s.sections.any (fun sec => coveredBy sec addr size) then
    .ok true s
  else if kMaxModifiedSections ≤ s.sections.length then
    .fatal .fastfail .tooManyModifiedSections
  else
    let newProtect := getWritableProtection (s.prot addr)
    let oldProtect := s.prot addr
    .ok true { s with
      prot := protectRange s.prot addr size newProtect,
      sections := s.sections ++ [⟨addr, size, oldProtect⟩] }

/-- `restoreProtections()`: restore every tracked region to its saved
protection, in table order, and reset the tracking count to zero. -/
def restoreProtections (s : RelocState) : RelocState :=
  { s with
    prot := s.sections.foldl
      (fun p sec => protectRange p sec.address sec.size sec.oldProtect) s.prot,
    sections := [] }

/-- `applyRelocV2(base, reloc)`: read the pointer stored at `base + sym`,
compute `delta` as its difference from the slot address `base + sym`,
make the target writable, then add `delta` to the value at
`base + target` at the width given by the low byte of `flags`.  The 8-,
16- and 64-bit cases wrap (the C++ `val += static_cast<intN_t>(delta)`
is addition modulo 2^N on the stored bytes); the 32-bit case computes
the exact `int64_t` sum, aborts via `fatalErrorEarly` when it leaves
`[INT32_MIN, INT32_MAX]`, and stores it otherwise.  An unrecognized
width returns `false` (after the target was already made writable, as
in the source). -/
def applyRelocV2 (base : Nat) (r : PseudoRelocV2) (s : RelocState) :
    RelocResult :=
  let symAddr := base + r.sym
  let actualAddr := loadLE s.mem symAddr 8
  let delta : Int := (actualAddr : Int) - (symAddr : Int)
  let targetAddr := base + r.target
  let size := r.flags &&& kRelocFlagSizeMask
  match makeWritable targetAddr (size / 8) s with
  | .fatal k m => .fatal k m
  | .ok false s1 => .ok false s1
  | .ok true s1 =>
    if size = kRelocFlagSize8 then
      let stored := ((toSigned8 (loadLE s1.mem targetAddr 1) + delta) % 256).toNat
      .ok true { s1 with mem := storeLE s1.mem targetAddr 1 stored }
    else if size = kRelocFlagSize16 then
      let stored := ((toSigned16 (loadLE s1.mem targetAddr 2) + delta) % 65536).toNat
      .ok true { s1 with mem := storeLE s1.mem targetAddr 2 stored }
    else if size = kRelocFlagSize32 then
      let val := toSigned32 (loadLE s1.mem targetAddr 4)
      let newVal := val + delta
      if newVal < int32Min ∨ int32Max < newVal then
        .fatal .fastfail .relocOverflow32
      else
        let stored := (newVal % 4294967296).toNat
        .ok true { s1 with mem := storeLE s1.mem targetAddr 4 stored }
    else if size = kRelocFlagSize64 then
      let stored :=
        ((toSigned64 (loadLE s1.mem targetAddr 8) + delta) % 18446744073709551616).toNat
      .ok true { s1 with mem := storeLE s1.mem targetAddr 8 stored }
    else
      .ok false s1

/-- Result of a whole relocation pass. -/
inductive PassResult where
  | ok (s : RelocState)
  | fatal (kind : TermKind) (msg : FatalMsg)

/-- Did the pass complete without a fatal error? -/
def PassResult.isOk : PassResult → Bool
  | .ok _ => true
  | .fatal _ _ => false

/-- The state of a non-fatal pass result (with a default for the fatal
case, which terminated the process). -/
def PassResult.stateD : PassResult → RelocState → RelocState
  | .ok s, _ => s
  | .fatal _ _, d => d

/-- The V2 entry loop of `doPseudoReloc`: apply each entry in order.
The C++ discards `applyRelocV2`'s boolean result and continues; a fatal
error terminates the process, so no further entry is processed. -/
def processV2 (base : Nat) : List PseudoRelocV2 → RelocState → PassResult
  | [], s => .ok s
  | r :: rest, s =>
    match applyRelocV2 base r s with
    | .fatal k m => .fatal k m
    | .ok _ s1 => processV2 base rest s1

/-- The V1 entry loop of `doPseudoReloc`: for each legacy entry, make
the 4-byte target writable and, on success, add `addend` to the DWORD
at `base + target` (wrapping modulo 2^32). -/
def processV1 (base : Nat) : List PseudoRelocV1 → RelocState → PassResult
  | [], s => .ok s
  | r :: rest, s =>
    let targetAddr := base + r.target
    match makeWritable targetAddr 4 s with
    | .fatal k m => .fatal k m
    | .ok success s1 =>
      let stored := (loadLE s1.mem targetAddr 4 + r.addend) % 4294967296
      let s2 := if success then
        { s1 with mem := storeLE s1.mem targetAddr 4 stored } else s1
      processV1 base rest s2

/-- A parsed relocation table.  `doPseudoReloc` detects the format from
the first bytes of the raw table: `start >= end` is the empty table,
two leading zero DWORDs announce the V2 header `{0, 0, version}`, and
anything else is the legacy headerless V1 format.  This embedding works
on the parsed form; the raw-byte header detection itself is not
modelled. -/
inductive RelocTable where
  | empty
  | v2 (version : Nat) (entries : List PseudoRelocV2)
  | v1 (entries : List PseudoRelocV1)

/-- `doPseudoReloc(start, end, base)`: nothing to do for an empty table;
for a V2 table, skip entirely (without touching protections) unless the
version is 1, otherwise run the V2 loop; for a V1 table run the legacy
loop; finally restore all modified protections.  On the fatal paths the
process has terminated and no restoration happens, as in the source. -/
def doPseudoReloc (base : Nat) (t : RelocTable) (s : RelocState) : PassResult :=
  match t with
  | .empty => .ok s
  | .v2 version entries =>
    if version ≠ 1 then .ok s
    else
      match processV2 base entries s with
      | .fatal k m => .fatal k m
      | .ok s1 => .ok (restoreProtections s1)
  | .v1 entries =>
    match processV1 base entries s with
    | .fatal k m => .fatal k m
    | .ok s1 => .ok (restoreProtections s1)


/-! ### Security cookie module (crt_windows_security.cpp), 64-bit path -/

/-- `crt::DefaultSecurityCookie` for 64-bit targets. -/
def DefaultSecurityCookie : Nat := 0x00002B992DDFA232

/-- Reduce to a `uint64_t` value. -/
def u64 (x : Nat) : Nat := x % 18446744073709551616

/-- Bitwise NOT of a `uint64_t` value (`~cookie`). -/
def compl64 (x : Nat) : Nat := 18446744073709551615 - u64 x

/-- The entropy sources read by `__security_init_cookie`: system time,
thread and process ids, tick count, performance counter (low part and
full 64-bit quad part) and the stack address of the local `cookie`
variable.  Each is an arbitrary value supplied by the environment. -/
structure Entropy where
  systime : Nat
  tid : Nat
  pid : Nat
  tickCount : Nat
  perfLow : Nat
  perfQuad : Nat
  stackAddr : Nat
  deriving Repr, DecidableEq

/-- The globals `__security_cookie` and `__security_cookie_complement`. -/
structure CookieState where
  cookie : Nat
  complement : Nat
  deriving Repr, DecidableEq

/-- The initial cookie state: the default sentinel and its complement. -/
def initialCookieState : CookieState :=
  { cookie := DefaultSecurityCookie,
    complement := compl64 DefaultSecurityCookie }

/-- The entropy-combination part of `__security_init_cookie` (64-bit
path of MSVC-style `__get_entropy`): XOR the sources together in source
order, with the tick count also folded in shifted left by 56 and the
performance counter's low part shifted left by 32, then mask off the
top 16 bits. -/
def computeCookie (e : Entropy) : Nat :=
  let c := u64 e.systime
  let c := c ^^^ u64 e.tid
  let c := c ^^^ u64 e.pid
  let c := c ^^^ u64 (e.tickCount <<< 56)
  let c := c ^^^ u64 e.tickCount
  let c := c ^^^ (u64 (e.perfLow <<< 32) ^^^ u64 e.perfQuad)
  let c := c ^^^ u64 e.stackAddr
  c &&& 0x0000FFFFFFFFFFFF

/-- `__security_init_cookie` (64-bit path): if the cookie already
differs from the default sentinel, only repair the complement and
return; otherwise gather entropy, mask, replace a resulting default or
zero value by `default + 1`, and set both globals. -/
def __security_init_cookie (e : Entropy) (s : CookieState) : CookieState :=
  if s.cookie ≠ DefaultSecurityCookie then
    { s with complement := compl64 s.cookie }
  else
    let c := computeCookie e
    let c :=
      if c = DefaultSecurityCookie then DefaultSecurityCookie + 1
      else if c = 0 then DefaultSecurityCookie + 1
      else c
    { cookie := c, complement := compl64 c }

/-- How a call to `__security_check_cookie` ends: a normal return, or
process termination through `__fastfail` with the given code. -/
inductive CheckResult where
  | returned
  | fastfail (code : Nat)
  deriving Repr, DecidableEq

/-- `__report_gsfailure`: terminate via
`__fastfail(FastFailStackCookieCheckFailure)`; never returns. -/
def __report_gsfailure : CheckResult :=
  .fastfail FastFailStackCookieCheckFailure

/-- `__security_check_cookie(cookie)`: compare with the stored
`__security_cookie`; on mismatch call `__report_gsfailure`. -/
def __security_check_cookie (cookie : Nat) (stored : Nat) : CheckResult :=
  if cookie = stored then .returned else __report_gsfailure

/-! ### CRT initialization orchestrator (crt_windows_init.cpp)

`commonInitCallback` is embedded as a trace semantics: each call it
makes is recorded as an event, in program order.  The C-initializer
array `__xi_a .. __xi_z` is a list of slots, each either null (skipped
by `initterm_e`) or a function returning an `Int`; the C++-constructor
array `__xc_a .. __xc_z` is a list of slots, each either null (skipped
by `initterm`) or a constructor.  Events carry the slot index. -/

/-- Events of the one-time startup body `commonInitCallback`:
`runPseudoRelocator()`, `securityInitCookie()`, `_fpreset()`, the call
of C-initializer slot `k`, and the call of C++-constructor slot `k`. -/
inductive InitEv where
  | pseudoReloc
  | cookieInit
  | fpresetCall
  | cInit (k : Nat)
  | cxxCtor (k : Nat)
  deriving Repr, DecidableEq

/-- `crt::RuntimeError` codes used by `fatalError` / `_amsg_exit`;
`RuntimeError::CrtInit` is 27. -/
def runtimeErrorCrtInit : Nat := 27

/-- How the startup body ends: return `TRUE`, or process termination
through the runtime-error-reporting path `fatalError` (`_amsg_exit`)
with the given code. -/
inductive InitOutcome where
  | ok
  | fatalReported (code : Nat)
  deriving Repr, DecidableEq

/-- `crt::initterm_e(first, last)` as a trace: walk the slots in order,
skip null ones, call the others (recording an event), and stop with the
first non-zero return value.  `k` is the index of the first slot.
Returns the events emitted and the function's return value. -/
def initterm_e_run : List (Option Int) → Nat → List InitEv × Int
  | [], _ => ([], 0)
  | none :: rest, k => initterm_e_run rest (k + 1)
  | some ret :: rest, k =>
    if ret ≠ 0 then ([.cInit k], ret)
    else
      let t := initterm_e_run rest (k + 1)
      (.cInit k :: t.1, t.2)

/-- `crt::initterm(first, last)` as a trace over the C++-constructor
array: call every non-null slot in order. -/
def initterm_run : List Bool → Nat → List InitEv
  | [], _ => []
  | occupied :: rest, k =>
    if occupied then .cxxCtor k :: initterm_run rest (k + 1)
    else initterm_run rest (k + 1)

/-- The per-module section arrays consumed by the startup body. -/
structure CrtSectionEnv where
  cInits : List (Option Int)
  cxxCtors : List Bool

/-- `commonInitCallback`: process pseudo-relocations, initialize the
security cookie, reset floating-point state, run the C initializers
(aborting via `fatalError(RuntimeError::CrtInit)` if any returns
non-zero), then run the C++ constructors and return `TRUE`. -/
def commonInitCallback (env : CrtSectionEnv) : List InitEv × InitOutcome :=
  let pre : List InitEv := [.pseudoReloc, .cookieInit, .fpresetCall]
  let t := initterm_e_run env.cInits 0
  if t.2 ≠ 0 then
    (pre ++ t.1, .fatalReported runtimeErrorCrtInit)
  else
    (pre ++ t.1 ++ initterm_run env.cxxCtors 0, .ok)

/-! ### DLL entry point (crt_windows.cpp) -/

/-- Events of `_DllMainCRTStartup`, in call order: the guarded
orchestrator `crt::commonInit()`, the user's `DllMain`,
`DisableThreadLibraryCalls`, `__cxa_finalize(__dso_handle)`,
`crt::runPreterminators()` and `crt::runTerminators()`. -/
inductive DllEv where
  | commonInitCall
  | userDllMain
  | disableThreadCalls
  | cxaFinalizeDso
  | preterminators
  | terminators
  deriving Repr, DecidableEq

/-- Link-time and user-controlled inputs of `_DllMainCRTStartup`:
whether libc++abi's weak `__cxa_finalize` is present (the
`CRT_CXA_FINALIZE_CALL` macro tests the weak symbol), the exported flag
`_crt_enable_thread_notifications`, and the value the user's `DllMain`
returns. -/
structure DllEnv where
  hasCxaFinalize : Bool
  enableThreadNotifications : Bool
  dllMainReturns : Bool

/-- `CRT_CXA_FINALIZE_CALL(__dso_handle)`: calls `__cxa_finalize` only
when the weak symbol is linked. -/
def cxaFinalizeDsoTrace (env : DllEnv) : List DllEv :=
  if env.hasCxaFinalize then [.cxaFinalizeDso] else []

/-- `_DllMainCRTStartup(hinstDLL, fdwReason, lpvReserved)` as a trace.
On process attach: run the orchestrator, call the user `DllMain`, and
if it succeeded and thread notifications are not enabled, call
`DisableThreadLibraryCalls`; return `DllMain`'s result.  On process
detach with null `lpvReserved` (explicit unload via `FreeLibrary`): run
this module's C++ destructors via `__cxa_finalize(__dso_handle)`, then
pre-terminators, then terminators, then call the user `DllMain`.  On
process detach with non-null `lpvReserved` (process terminating) and on
thread attach/detach: just call the user `DllMain`.  `lpvReserved` is
modelled as `Option Nat` (`none` = null pointer). -/
def _DllMainCRTStartup (fdwReason : Nat) (lpvReserved : Option Nat)
    (env : DllEnv) : List DllEv × Bool :=
  if fdwReason = kDllProcessAttach then
    let tail := if env.dllMainReturns && !env.enableThreadNotifications
      then [DllEv.disableThreadCalls] else []
    ([DllEv.commonInitCall, DllEv.userDllMain] ++ tail, env.dllMainReturns)
  else if fdwReason = kDllProcessDetach then
    let cleanup := match lpvReserved with
      | none => cxaFinalizeDsoTrace env ++ [DllEv.preterminators, DllEv.terminators]
      | some _ => []
    (cleanup ++ [DllEv.userDllMain], env.dllMainReturns)
  else
    ([DllEv.userDllMain], env.dllMainReturns)

/-! ### TLS directory (crt_windows_tls.cpp) -/

/-- The six field names of `CRT_IMAGE_TLS_DIRECTORY`, in declaration
order. -/
inductive TlsFieldName where
  | startAddressOfRawData
  | endAddressOfRawData
  | addressOfIndex
  | addressOfCallBacks
  | sizeOfZeroFill
  | characteristics
  deriving Repr, DecidableEq

/-- A field of the TLS directory record: its name and its integer width
in bits. -/
structure TlsField where
  name : TlsFieldName
  width : Nat
  deriving Repr, DecidableEq

/-- The 64-bit layout of `CRT_IMAGE_TLS_DIRECTORY` (`CRT_ARCH_X64` /
`CRT_ARCH_ARM64` branch): four `unsigned __int64` address fields
followed by two `DWORD` fields. -/
def tlsDirFields64 : List TlsField :=
  [⟨.startAddressOfRawData, 64⟩, ⟨.endAddressOfRawData, 64⟩,
   ⟨.addressOfIndex, 64⟩, ⟨.addressOfCallBacks, 64⟩,
   ⟨.sizeOfZeroFill, 32⟩, ⟨.characteristics, 32⟩]

/-- The 32-bit layout of `CRT_IMAGE_TLS_DIRECTORY` (the `#else` branch):
six `DWORD` fields. -/
def tlsDirFields32 : List TlsField :=
  [⟨.startAddressOfRawData, 32⟩, ⟨.endAddressOfRawData, 32⟩,
   ⟨.addressOfIndex, 32⟩, ⟨.addressOfCallBacks, 32⟩,
   ⟨.sizeOfZeroFill, 32⟩, ⟨.characteristics, 32⟩]

/-- Pointer width in bits on 64-bit targets. -/
def ptrWidth64 : Nat := 64

/-- Pointer width in bits on 32-bit targets. -/
def ptrWidth32 : Nat := 32

/-- The values of a `CRT_IMAGE_TLS_DIRECTORY` record. -/
structure TlsDirectory where
  startAddressOfRawData : Nat
  endAddressOfRawData : Nat
  addressOfIndex : Nat
  addressOfCallBacks : Nat
  sizeOfZeroFill : Nat
  characteristics : Nat
  deriving Repr, DecidableEq

/-- The exported `_tls_used` record, as a function of the link-time
addresses of `_tls_start`, `_tls_end`, `_tls_index` and `__xl_a`:
the four addresses, zero `SizeOfZeroFill` and zero `Characteristics`. -/
def _tls_used (tlsStart tlsEnd tlsIndex xlA : Nat) : TlsDirectory :=
  { startAddressOfRawData := tlsStart,
    endAddressOfRawData := tlsEnd,
    addressOfIndex := tlsIndex,
    addressOfCallBacks := xlA,
    sizeOfZeroFill := 0,
    characteristics := 0 }

/-! ### Memory lemmas -/

/-- `storeLE` leaves addresses outside `[a, a + n)` unchanged. -/
theorem storeLE_eq_outside : ∀ (n : Nat) (m : Mem) (a v x : Nat),
    x < a ∨ a + n ≤ x → storeLE m a n v x = m x := by
  intro n
  induction n with
  | zero => intro m a v x _; rfl
  | succ k ih =>
    intro m a v x hx
    show storeLE (fun y => if y = a then v % 256 else m y) (a + 1) k (v / 256) x = m x
    rw [ih _ _ _ _ (by omega)]
    have hxa : x ≠ a := by omega
    simp [hxa]

/-- Loading back `n` stored bytes returns the stored value when it fits. -/
theorem loadLE_storeLE : ∀ (n : Nat) (m : Mem) (a v : Nat),
    v < 2 ^ (8 * n) → loadLE (storeLE m a n v) a n = v := by
  intro n
  induction n with
  | zero => intro m a v hv; simp at hv; simp [loadLE, hv]
  | succ k ih =>
    intro m a v hv
    have hsplit : (2 : Nat) ^ (8 * (k + 1)) = 2 ^ (8 * k) * 256 := by
      rw [Nat.mul_succ, pow_add]; norm_num
    have hdiv : v / 256 < 2 ^ (8 * k) := by
      rw [Nat.div_lt_iff_lt_mul (by norm_num)]
      omega
    show storeLE m a (k + 1) v a % 256 + 256 * loadLE (storeLE m a (k + 1) v) (a + 1) k = v
    have hbyte : storeLE m a (k + 1) v a = v % 256 := by
      show storeLE (fun y => if y = a then v % 256 else m y) (a + 1) k (v / 256) a = v % 256
      rw [storeLE_eq_outside _ _ _ _ _ (by omega)]
      simp
    have htail : loadLE (storeLE m a (k + 1) v) (a + 1) k = v / 256 := by
      show loadLE (storeLE (fun y => if y = a then v % 256 else m y) (a + 1) k (v / 256)) (a + 1) k = v / 256
      exact ih _ _ _ hdiv
    rw [hbyte, htail]
    omega

/-- Writing back the representative of an in-range signed 32-bit value
and reinterpreting it recovers the value. -/
theorem toSigned32_emod (z : Int) (hlo : int32Min ≤ z) (hhi : z ≤ int32Max) :
    toSigned32 ((z % 4294967296).toNat) = z := by
  unfold toSigned32
  unfold int32Min at hlo
  unfold int32Max at hhi
  split <;> omega

/-- When the tracking table is below capacity, `makeWritable` succeeds
and leaves memory unchanged. -/
theorem makeWritable_ok (addr size : Nat) (s : RelocState)
    (hcap : s.sections.length < kMaxModifiedSections) :
    ∃ s1, makeWritable addr size s = .ok true s1 ∧ s1.mem = s.mem := by
  unfold makeWritable
  by_cases hcov : (s.sections.any fun sec => coveredBy sec addr size) = true
  · rw [if_pos hcov]
    exact ⟨s, rfl, rfl⟩
  · rw [if_neg hcov, if_neg (by unfold kMaxModifiedSections at hcap ⊢; omega)]
    exact ⟨_, rfl, rfl⟩

/-- C1: for a V2 relocation entry whose size-class flag is 32 and whose
result stays in signed 32-bit range, processing the entry replaces the
32-bit value stored at `base + target` with `original_value + delta`,
where `delta` is the pointer value stored at `base + sym` minus the
address `base + sym`. -/
theorem relocV2_size32_in_range_adds_delta (base : Nat) (r : PseudoRelocV2)
    (s : RelocState)
    (hflags : r.flags &&& kRelocFlagSizeMask = kRelocFlagSize32)
    (hcap : s.sections.length < kMaxModifiedSections)
    (hlo : int32Min ≤ toSigned32 (loadLE s.mem (base + r.target) 4) +
      ((loadLE s.mem (base + r.sym) 8 : Int) - ((base + r.sym : Nat) : Int)))
    (hhi : toSigned32 (loadLE s.mem (base + r.target) 4) +
      ((loadLE s.mem (base + r.sym) 8 : Int) - ((base + r.sym : Nat) : Int)) ≤
        int32Max) :
    ∃ s1, applyRelocV2 base r s = .ok true s1 ∧
      toSigned32 (loadLE s1.mem (base + r.target) 4) =
        toSigned32 (loadLE s.mem (base + r.target) 4) +
        ((loadLE s.mem (base + r.sym) 8 : Int) - ((base + r.sym : Nat) : Int)) := by
  have h4 : kRelocFlagSize32 / 8 = 4 := by norm_num [kRelocFlagSize32]
  obtain ⟨s1, hmw, hmem⟩ := makeWritable_ok (base + r.target) 4 s hcap
  simp only [applyRelocV2, hflags, h4, hmw]
  rw [if_neg (by norm_num [kRelocFlagSize32, kRelocFlagSize8]),
    if_neg (by norm_num [kRelocFlagSize32, kRelocFlagSize16]),
    if_pos (show True from trivial), hmem]
  rw [if_neg (by
    simp only [not_or, not_lt]
    exact ⟨hlo, hhi⟩)]
  refine ⟨_, rfl, ?_⟩
  have hpow : (2 : Nat) ^ (8 * 4) = 4294967296 := by norm_num
  have hbound :
      ((toSigned32 (loadLE s.mem (base + r.target) 4) +
        ((loadLE s.mem (base + r.sym) 8 : Int) - ((base + r.sym : Nat) : Int))) %
          4294967296).toNat < 2 ^ (8 * 4) := by
    rw [hpow]; omega
  rw [loadLE_storeLE 4 _ _ _ hbound]
  exact toSigned32_emod _ hlo hhi

/-- Witness for C1: base 0, entry `{sym := 100, target := 8, flags := 32}`,
the import slot at address 100 holding pointer value 150 (delta 50),
the target holding 7; processing yields 57. -/
theorem relocV2_size32_in_range_adds_delta_witness :
    ∃ s1, applyRelocV2 0 ⟨100, 8, 32⟩
        ⟨fun a => if a = 100 then 150 else if a = 8 then 7 else 0,
         fun _ => kPageReadonly, []⟩ = .ok true s1 ∧
      toSigned32 (loadLE s1.mem (0 + 8) 4) =
        toSigned32 (loadLE
          (fun a => if a = 100 then 150 else if a = 8 then 7 else 0) (0 + 8) 4) +
        ((loadLE (fun a => if a = 100 then 150 else if a = 8 then 7 else 0)
          (0 + 100) 8 : Int) - ((0 + 100 : Nat) : Int)) :=
  relocV2_size32_in_range_adds_delta 0 ⟨100, 8, 32⟩
    ⟨fun a => if a = 100 then 150 else if a = 8 then 7 else 0,
     fun _ => kPageReadonly, []⟩
    (by decide) (by decide) (by decide) (by decide)

/-- C2: a V2 entry of size-class 32 whose sum overflows the signed
32-bit range makes the processor terminate immediately through the
`__fastfail` primitive (the `fatalErrorEarly` path), and no further
entry of the table is processed: the result of the pass does not depend
on the remaining entries at all. -/
theorem relocV2_size32_overflow_fatal (base : Nat) (r : PseudoRelocV2)
    (s : RelocState) (rest : List PseudoRelocV2)
    (hflags : r.flags &&& kRelocFlagSizeMask = kRelocFlagSize32)
    (hcap : s.sections.length < kMaxModifiedSections)
    (hoverflow : toSigned32 (loadLE s.mem (base + r.target) 4) +
        ((loadLE s.mem (base + r.sym) 8 : Int) - ((base + r.sym : Nat) : Int)) <
          int32Min ∨
      int32Max < toSigned32 (loadLE s.mem (base + r.target) 4) +
        ((loadLE s.mem (base + r.sym) 8 : Int) - ((base + r.sym : Nat) : Int))) :
    applyRelocV2 base r s = .fatal .fastfail .relocOverflow32 ∧
    processV2 base (r :: rest) s = .fatal .fastfail .relocOverflow32 := by
  have h4 : kRelocFlagSize32 / 8 = 4 := by norm_num [kRelocFlagSize32]
  obtain ⟨s1, hmw, hmem⟩ := makeWritable_ok (base + r.target) 4 s hcap
  have happly : applyRelocV2 base r s = .fatal .fastfail .relocOverflow32 := by
    simp only [applyRelocV2, hflags, h4, hmw]
    rw [if_neg (by norm_num [kRelocFlagSize32, kRelocFlagSize8]),
      if_neg (by norm_num [kRelocFlagSize32, kRelocFlagSize16]),
      if_pos (show True from trivial), hmem]
    rw [if_pos hoverflow]
  exact ⟨happly, by simp only [processV2, happly]⟩

/-- Witness for C2: base 0, one overflowing size-32 entry (the import
slot at address 100 holds the pointer value 2^32, so the delta is
4294967196, far above `INT32_MAX`), followed by one further entry that
is never processed. -/
theorem relocV2_size32_overflow_fatal_witness :
    applyRelocV2 0 ⟨100, 8, 32⟩
        ⟨fun a => if a = 104 then 1 else if a = 8 then 7 else 0,
         fun _ => kPageReadonly, []⟩ = .fatal .fastfail .relocOverflow32 ∧
    processV2 0 [⟨100, 8, 32⟩, ⟨100, 16, 32⟩]
        ⟨fun a => if a = 104 then 1 else if a = 8 then 7 else 0,
         fun _ => kPageReadonly, []⟩ = .fatal .fastfail .relocOverflow32 :=
  relocV2_size32_overflow_fatal 0 ⟨100, 8, 32⟩
    ⟨fun a => if a = 104 then 1 else if a = 8 then 7 else 0,
     fun _ => kPageReadonly, []⟩ [⟨100, 16, 32⟩]
    (by decide) (by decide) (by decide)

/-! ### Protection-restoration lemmas -/

/-- Restoring a list of sections does not change the protection of an
address outside all of them. -/
theorem foldl_protect_outside : ∀ (L : List ModifiedSection) (p : Nat → Nat)
    (a : Nat), (∀ sec ∈ L, a < sec.address ∨ sec.address + sec.size ≤ a) →
    L.foldl (fun q sec => protectRange q sec.address sec.size sec.oldProtect)
      p a = p a := by
  intro L
  induction L with
  | nil => intro p a _; rfl
  | cons x xs ih =>
    intro p a h
    show List.foldl _ (protectRange p x.address x.size x.oldProtect) xs a = p a
    rw [ih _ _ (fun sec hs => h sec (List.mem_cons_of_mem _ hs))]
    have hx := h x (List.mem_cons_self _ _)
    unfold protectRange
    rw [if_neg (by omega)]

/-- When the listed sections are pairwise disjoint, restoring them sets
every address of a section to that section's saved protection. -/
theorem foldl_protect_mem : ∀ (L : List ModifiedSection) (p : Nat → Nat)
    (sec : ModifiedSection), sec ∈ L →
    List.Pairwise (fun x y => x.address + x.size ≤ y.address ∨
      y.address + y.size ≤ x.address) L →
    ∀ a, sec.address ≤ a → a < sec.address + sec.size →
    L.foldl (fun q s0 => protectRange q s0.address s0.size s0.oldProtect)
      p a = sec.oldProtect := by
  intro L
  induction L with
  | nil => intro p sec hmem; exact absurd hmem (List.not_mem_nil _)
  | cons x xs ih =>
    intro p sec hmem hpw a ha1 ha2
    rcases List.mem_cons.mp hmem with heq | hxs
    · subst heq
      show List.foldl _ (protectRange p sec.address sec.size sec.oldProtect)
        xs a = sec.oldProtect
      rw [foldl_protect_outside xs _ a (by
        intro y hy
        have hd := (List.pairwise_cons.mp hpw).1 y hy
        omega)]
      unfold protectRange
      rw [if_pos ⟨ha1, ha2⟩]
    · exact ih _ _ hxs (List.pairwise_cons.mp hpw).2 a ha1 ha2

/-- C3: any relocation pass that completes without a fatal error
upholds the restoration obligation.  Both non-trivial formats — the V2
loop and the legacy V1 loop — end by running `restoreProtections` on
the state their processing produced; the no-op paths (empty table,
unknown V2 version) return the state untouched, changing no protection
at all during the pass; and `restoreProtections` always resets the
tracking count to zero and, for pairwise-disjoint tracked regions (the
"distinct tracked regions" of the claim), gives every address of every
region that was made writable its saved original protection back. -/
theorem pass_restores_protections (base : Nat) (s : RelocState) :
    (∀ entries sMid, processV2 base entries s = .ok sMid →
      doPseudoReloc base (.v2 1 entries) s = .ok (restoreProtections sMid)) ∧
    (∀ entries sMid, processV1 base entries s = .ok sMid →
      doPseudoReloc base (.v1 entries) s = .ok (restoreProtections sMid)) ∧
    doPseudoReloc base .empty s = .ok s ∧
    (∀ version entries, version ≠ 1 →
      doPseudoReloc base (.v2 version entries) s = .ok s) ∧
    (∀ sMid : RelocState, (restoreProtections sMid).sections = [] ∧
      (List.Pairwise (fun x y => x.address + x.size ≤ y.address ∨
          y.address + y.size ≤ x.address) sMid.sections →
        ∀ sec ∈ sMid.sections, ∀ a, sec.address ≤ a →
          a < sec.address + sec.size →
          (restoreProtections sMid).prot a = sec.oldProtect)) := by
  refine ⟨?_, ?_, rfl, ?_, ?_⟩
  · intro entries sMid hrun
    simp [doPseudoReloc, hrun]
  · intro entries sMid hrun
    simp [doPseudoReloc, hrun]
  · intro version entries hv
    simp only [doPseudoReloc]
    rw [if_pos hv]
  · intro sMid
    refine ⟨rfl, ?_⟩
    intro hpw sec hmem a ha1 ha2
    exact foldl_protect_mem sMid.sections sMid.prot sec hmem hpw a ha1 ha2

/-- Witness for C3: the pass at base 0 from a state that already tracks
the modified region `[8, 12)` with saved protection `PAGE_READONLY`;
restoring it resets the count and brings the protection back. -/
theorem pass_restores_protections_witness :
    (∀ entries sMid, processV2 0 entries
        ⟨fun _ => 0, fun _ => kPageReadwrite, [⟨8, 4, kPageReadonly⟩]⟩ =
          .ok sMid →
      doPseudoReloc 0 (.v2 1 entries)
        ⟨fun _ => 0, fun _ => kPageReadwrite, [⟨8, 4, kPageReadonly⟩]⟩ =
          .ok (restoreProtections sMid)) ∧
    (∀ entries sMid, processV1 0 entries
        ⟨fun _ => 0, fun _ => kPageReadwrite, [⟨8, 4, kPageReadonly⟩]⟩ =
          .ok sMid →
      doPseudoReloc 0 (.v1 entries)
        ⟨fun _ => 0, fun _ => kPageReadwrite, [⟨8, 4, kPageReadonly⟩]⟩ =
          .ok (restoreProtections sMid)) ∧
    doPseudoReloc 0 .empty
        ⟨fun _ => 0, fun _ => kPageReadwrite, [⟨8, 4, kPageReadonly⟩]⟩ =
      .ok ⟨fun _ => 0, fun _ => kPageReadwrite, [⟨8, 4, kPageReadonly⟩]⟩ ∧
    (∀ version entries, version ≠ 1 →
      doPseudoReloc 0 (.v2 version entries)
          ⟨fun _ => 0, fun _ => kPageReadwrite, [⟨8, 4, kPageReadonly⟩]⟩ =
        .ok ⟨fun _ => 0, fun _ => kPageReadwrite, [⟨8, 4, kPageReadonly⟩]⟩) ∧
    (∀ sMid : RelocState, (restoreProtections sMid).sections = [] ∧
      (List.Pairwise (fun x y => x.address + x.size ≤ y.address ∨
          y.address + y.size ≤ x.address) sMid.sections →
        ∀ sec ∈ sMid.sections, ∀ a, sec.address ≤ a →
          a < sec.address + sec.size →
          (restoreProtections sMid).prot a = sec.oldProtect)) :=
  pass_restores_protections 0
    ⟨fun _ => 0, fun _ => kPageReadwrite, [⟨8, 4, kPageReadonly⟩]⟩

/-! ### Orchestrator lemmas -/

/-- Every event emitted by the C-initializer walk is a `cInit` event
with index at least the starting index. -/
theorem initterm_e_run_events : ∀ (l : List (Option Int)) (k : Nat)
    (e : InitEv), e ∈ (initterm_e_run l k).1 → ∃ m, e = .cInit m ∧ k ≤ m := by
  intro l
  induction l with
  | nil => intro k e he; exact absurd he (List.not_mem_nil _)
  | cons a rest ih =>
    intro k e he
    match a with
    | none =>
      obtain ⟨m, hm, hk⟩ := ih (k + 1) e he
      exact ⟨m, hm, by omega⟩
    | some ret =>
      by_cases hr : ret ≠ 0
      · simp only [initterm_e_run, if_pos hr] at he
        rcases List.mem_singleton.mp he with rfl
        exact ⟨k, rfl, le_refl k⟩
      · simp only [initterm_e_run, if_neg hr] at he
        rcases List.mem_cons.mp he with rfl | htail
        · exact ⟨k, rfl, le_refl k⟩
        · obtain ⟨m, hm, hk⟩ := ih (k + 1) e htail
          exact ⟨m, hm, by omega⟩

/-- Every event emitted by the C++-constructor walk is a `cxxCtor`
event with index at least the starting index. -/
theorem initterm_run_events : ∀ (l : List Bool) (k : Nat) (e : InitEv),
    e ∈ initterm_run l k → ∃ m, e = .cxxCtor m ∧ k ≤ m := by
  intro l
  induction l with
  | nil => intro k e he; exact absurd he (List.not_mem_nil _)
  | cons a rest ih =>
    intro k e he
    match a with
    | true =>
      rcases List.mem_cons.mp he with rfl | htail
      · exact ⟨k, rfl, le_refl k⟩
      · obtain ⟨m, hm, hk⟩ := ih (k + 1) e htail
        exact ⟨m, hm, by omega⟩
    | false =>
      obtain ⟨m, hm, hk⟩ := ih (k + 1) e he
      exact ⟨m, hm, by omega⟩

/-- C4: when every C initializer succeeds, the one-time startup body
performs, in this strict order: pseudo-relocation, then security-cookie
initialization, then the floating-point reset, then the C-initializer
walk (whose events are exactly the `cInit` events), then the
C++-constructor walk (whose events are exactly the `cxxCtor` events).
In particular cookie initialization never precedes pseudo-relocation
and no constructor runs before every C initializer has run. -/
theorem commonInitCallback_strict_order (env : CrtSectionEnv)
    (hok : (initterm_e_run env.cInits 0).2 = 0) :
    (commonInitCallback env).1 =
      [.pseudoReloc, .cookieInit, .fpresetCall] ++
        (initterm_e_run env.cInits 0).1 ++ initterm_run env.cxxCtors 0 ∧
    (commonInitCallback env).2 = .ok ∧
    (∀ e ∈ (initterm_e_run env.cInits 0).1, ∃ m, e = InitEv.cInit m) ∧
    (∀ e ∈ initterm_run env.cxxCtors 0, ∃ m, e = InitEv.cxxCtor m) := by
  refine ⟨?_, ?_, ?_, ?_⟩
  · simp [commonInitCallback, hok]
  · simp [commonInitCallback, hok]
  · intro e he
    obtain ⟨m, hm, _⟩ := initterm_e_run_events env.cInits 0 e he
    exact ⟨m, hm⟩
  · intro e he
    obtain ⟨m, hm, _⟩ := initterm_run_events env.cxxCtors 0 e he
    exact ⟨m, hm⟩

/-- Witness for C4: two C-initializer slots (one occupied and
succeeding, one null) and one C++-constructor slot. -/
theorem commonInitCallback_strict_order_witness :
    (commonInitCallback ⟨[some 0, none], [true]⟩).1 =
      [.pseudoReloc, .cookieInit, .fpresetCall] ++
        (initterm_e_run [some 0, none] 0).1 ++ initterm_run [true] 0 ∧
    (commonInitCallback ⟨[some 0, none], [true]⟩).2 = .ok ∧
    (∀ e ∈ (initterm_e_run [some 0, none] 0).1, ∃ m, e = InitEv.cInit m) ∧
    (∀ e ∈ initterm_run [true] 0, ∃ m, e = InitEv.cxxCtor m) :=
  commonInitCallback_strict_order ⟨[some 0, none], [true]⟩ (by decide)

/-- When slot `i` is the first occupied C-initializer slot returning a
non-zero value, the walk returns non-zero and emits only `cInit` events
with indices up to `k + i`. -/
theorem initterm_e_run_first_failure : ∀ (l : List (Option Int)) (k i : Nat)
    (r : Int), l.get? i = some (some r) → r ≠ 0 →
    (∀ j x, j < i → l.get? j = some (some x) → x = 0) →
    (initterm_e_run l k).2 ≠ 0 ∧
    (∀ e ∈ (initterm_e_run l k).1, ∃ m, e = InitEv.cInit m ∧ m ≤ k + i) := by
  intro l
  induction l with
  | nil => intro k i r hget; simp at hget
  | cons a rest ih =>
    intro k i r hget hr hprev
    match i, a with
    | 0, a =>
      have ha : a = some r := by simpa using hget
      subst ha
      constructor
      · simp only [initterm_e_run, if_pos hr]
        exact hr
      · intro e he
        simp only [initterm_e_run, if_pos hr] at he
        rcases List.mem_singleton.mp he with rfl
        exact ⟨k, rfl, by omega⟩
    | Nat.succ i0, none =>
      have hget0 : rest.get? i0 = some (some r) := by simpa using hget
      have hprev0 : ∀ j x, j < i0 → rest.get? j = some (some x) → x = 0 := by
        intro j x hj hx
        exact hprev (j + 1) x (by omega) (by simpa using hx)
      obtain ⟨hne, hev⟩ := ih (k + 1) i0 r hget0 hr hprev0
      refine ⟨hne, ?_⟩
      intro e he
      obtain ⟨m, hm, hk⟩ := hev e he
      exact ⟨m, hm, by omega⟩
    | Nat.succ i0, some x =>
      have hx : x = 0 := hprev 0 x (by omega) (by simp)
      subst hx
      have hget0 : rest.get? i0 = some (some r) := by simpa using hget
      have hprev0 : ∀ j y, j < i0 → rest.get? j = some (some y) → y = 0 := by
        intro j y hj hy
        exact hprev (j + 1) y (by omega) (by simpa using hy)
      obtain ⟨hne, hev⟩ := ih (k + 1) i0 r hget0 hr hprev0
      constructor
      · simpa only [initterm_e_run, if_neg (by simp : ¬((0 : Int) ≠ 0))] using hne
      · intro e he
        simp only [initterm_e_run, if_neg (by simp : ¬((0 : Int) ≠ 0))] at he
        rcases List.mem_cons.mp he with rfl | htail
        · exact ⟨k, rfl, by omega⟩
        · obtain ⟨m, hm, hk⟩ := hev e htail
          exact ⟨m, hm, by omega⟩

/-- C8: if some C-initializer slot is the first to return a non-zero
value, the startup body terminates through the runtime-error-reporting
path (`fatalError` / `_amsg_exit` with `RuntimeError::CrtInit`), its
trace stops after the C-initializer walk, no C initializer after the
failing slot runs, and no C++ constructor runs at all. -/
theorem cinit_failure_fatal_reported (env : CrtSectionEnv) (i : Nat) (r : Int)
    (hget : env.cInits.get? i = some (some r)) (hr : r ≠ 0)
    (hprev : ∀ j x, j < i → env.cInits.get? j = some (some x) → x = 0) :
    (commonInitCallback env).2 = .fatalReported runtimeErrorCrtInit ∧
    (commonInitCallback env).1 =
      [.pseudoReloc, .cookieInit, .fpresetCall] ++
        (initterm_e_run env.cInits 0).1 ∧
    (∀ e ∈ (commonInitCallback env).1, ∀ m, e ≠ InitEv.cxxCtor m) ∧
    (∀ m, InitEv.cInit m ∈ (commonInitCallback env).1 → m ≤ i) := by
  obtain ⟨hne, hev⟩ :=
    initterm_e_run_first_failure env.cInits 0 i r hget hr hprev
  have htrace : (commonInitCallback env).1 =
      [.pseudoReloc, .cookieInit, .fpresetCall] ++
        (initterm_e_run env.cInits 0).1 := by
    simp only [commonInitCallback]
    rw [if_pos hne]
  refine ⟨?_, htrace, ?_, ?_⟩
  · simp only [commonInitCallback]
    rw [if_pos hne]
  · intro e he m
    rw [htrace] at he
    rcases List.mem_append.mp he with hpre | hrun
    · fin_cases hpre <;> simp
    · obtain ⟨m0, hm0, _⟩ := hev e hrun
      subst hm0
      simp
  · intro m hm
    rw [htrace] at hm
    rcases List.mem_append.mp hm with hpre | hrun
    · simp at hpre
    · obtain ⟨m0, hm0, hk⟩ := hev _ hrun
      have : m = m0 := by
        injection hm0
      omega

/-- Witness for C8: two C-initializer slots, the first succeeding and
the second returning 5, plus one (never-run) C++-constructor slot. -/
theorem cinit_failure_fatal_reported_witness :
    (commonInitCallback ⟨[some 0, some 5], [true]⟩).2 =
      .fatalReported runtimeErrorCrtInit ∧
    (commonInitCallback ⟨[some 0, some 5], [true]⟩).1 =
      [.pseudoReloc, .cookieInit, .fpresetCall] ++
        (initterm_e_run [some 0, some 5] 0).1 ∧
    (∀ e ∈ (commonInitCallback ⟨[some 0, some 5], [true]⟩).1,
      ∀ m, e ≠ InitEv.cxxCtor m) ∧
    (∀ m, InitEv.cInit m ∈ (commonInitCallback ⟨[some 0, some 5], [true]⟩).1 →
      m ≤ 1) :=
  cinit_failure_fatal_reported ⟨[some 0, some 5], [true]⟩ 1 5 (by decide)
    (by decide)
    (by
      intro j x hj hx
      have hj0 : j = 0 := by omega
      subst hj0
      simp only [List.get?] at hx
      injection hx with hx1
      injection hx1 with hx2
      omega)

/-- C6: after every call to `__security_init_cookie` the complement
global equals the bitwise NOT of the cookie; when the cookie already
differs from the default sentinel, the call leaves the primary value
unchanged and at most rewrites the complement; and a call from the
default state always leaves the cookie different from the sentinel, so
the first computed value persists through all later calls. -/
theorem security_init_cookie_invariant (e : Entropy) (s : CookieState) :
    (__security_init_cookie e s).complement =
      compl64 ((__security_init_cookie e s).cookie) ∧
    (s.cookie ≠ DefaultSecurityCookie →
      __security_init_cookie e s = { s with complement := compl64 s.cookie }) ∧
    (s.cookie = DefaultSecurityCookie →
      (__security_init_cookie e s).cookie ≠ DefaultSecurityCookie) := by
  by_cases h : s.cookie = DefaultSecurityCookie
  · have hbranch : __security_init_cookie e s =
        { cookie :=
            if computeCookie e = DefaultSecurityCookie then
              DefaultSecurityCookie + 1
            else if computeCookie e = 0 then DefaultSecurityCookie + 1
            else computeCookie e,
          complement := compl64
            (if computeCookie e = DefaultSecurityCookie then
              DefaultSecurityCookie + 1
            else if computeCookie e = 0 then DefaultSecurityCookie + 1
            else computeCookie e) } := by
      simp only [__security_init_cookie, h]
      simp
    refine ⟨by rw [hbranch], fun hc => absurd h hc, fun _ => ?_⟩
    rw [hbranch]
    split_ifs with h1 h2
    · show DefaultSecurityCookie + 1 ≠ DefaultSecurityCookie
      omega
    · show DefaultSecurityCookie + 1 ≠ DefaultSecurityCookie
      omega
    · exact h1
  · have hbranch : __security_init_cookie e s =
        { s with complement := compl64 s.cookie } := by
      simp only [__security_init_cookie, if_pos h]
    exact ⟨by rw [hbranch], fun _ => hbranch, fun hc => absurd hc h⟩

/-- Witness for C6: a concrete entropy sample applied to the initial
(default-sentinel) cookie state. -/
theorem security_init_cookie_invariant_witness :
    (__security_init_cookie ⟨1, 2, 3, 4, 5, 6, 7⟩ initialCookieState).complement
      = compl64 ((__security_init_cookie ⟨1, 2, 3, 4, 5, 6, 7⟩
          initialCookieState).cookie) ∧
    (initialCookieState.cookie ≠ DefaultSecurityCookie →
      __security_init_cookie ⟨1, 2, 3, 4, 5, 6, 7⟩ initialCookieState =
        { initialCookieState with
          complement := compl64 initialCookieState.cookie }) ∧
    (initialCookieState.cookie = DefaultSecurityCookie →
      (__security_init_cookie ⟨1, 2, 3, 4, 5, 6, 7⟩
        initialCookieState).cookie ≠ DefaultSecurityCookie) :=
  security_init_cookie_invariant ⟨1, 2, 3, 4, 5, 6, 7⟩ initialCookieState

/-- C7: `__security_check_cookie` returns normally exactly when the
checked value equals the stored cookie; any mismatch goes through
`__report_gsfailure`, which terminates via the non-interceptable
`__fastfail` primitive and never returns. -/
theorem security_check_cookie_spec (c stored : Nat) :
    (__security_check_cookie c stored = .returned ↔ c = stored) ∧
    (c ≠ stored →
      __security_check_cookie c stored = __report_gsfailure ∧
      __report_gsfailure = .fastfail FastFailStackCookieCheckFailure) := by
  unfold __security_check_cookie __report_gsfailure
  by_cases h : c = stored
  · simp [h]
  · simp [h]

/-- Witness for C7: checking 3 against a stored cookie of 5. -/
theorem security_check_cookie_spec_witness :
    (__security_check_cookie 3 5 = .returned ↔ 3 = 5) ∧
    ((3 : Nat) ≠ 5 →
      __security_check_cookie 3 5 = __report_gsfailure ∧
      __report_gsfailure = .fastfail FastFailStackCookieCheckFailure) :=
  security_check_cookie_spec 3 5

/-- C9: on a process-detach event, `_DllMainCRTStartup` runs the
module-scoped cleanup (C++ destructor finalization for this module's
DSO handle, then pre-terminators, then terminators) exactly when the
reserved argument is null (explicit unload); with a non-null reserved
argument (process terminating) no module-scoped cleanup runs; and the
user `DllMain` is called in both cases. -/
theorem dllmain_detach_scoping (env : DllEnv) (res : Nat)
    (hfin : env.hasCxaFinalize = true) :
    (_DllMainCRTStartup kDllProcessDetach none env).1 =
      [.cxaFinalizeDso, .preterminators, .terminators, .userDllMain] ∧
    (_DllMainCRTStartup kDllProcessDetach (some res) env).1 =
      [.userDllMain] := by
  constructor <;>
    simp [_DllMainCRTStartup, cxaFinalizeDsoTrace, hfin, kDllProcessAttach,
      kDllProcessDetach]

/-- Witness for C9: a DLL with `__cxa_finalize` linked, thread
notifications left disabled, and a succeeding user `DllMain`. -/
theorem dllmain_detach_scoping_witness :
    (_DllMainCRTStartup kDllProcessDetach none ⟨true, false, true⟩).1 =
      [.cxaFinalizeDso, .preterminators, .terminators, .userDllMain] ∧
    (_DllMainCRTStartup kDllProcessDetach (some 7) ⟨true, false, true⟩).1 =
      [.userDllMain] :=
  dllmain_detach_scoping ⟨true, false, true⟩ 7 rfl

/-- C10 counterexample: on 64-bit targets not every field of the TLS
directory record has pointer width; the `sizeOfZeroFill` field of the
64-bit layout is a 32-bit `DWORD` while the pointer width is 64 bits
(and likewise `characteristics`). -/
theorem tls_dir_fields64_not_all_ptr_width :
    TlsField.mk .sizeOfZeroFill 32 ∈ tlsDirFields64 ∧
    TlsField.mk .characteristics 32 ∈ tlsDirFields64 ∧
    (32 : Nat) ≠ ptrWidth64 := by decide

/-- C10 (amended): the TLS directory record consists of exactly the
fields start-of-template, end-of-template, address-of-index-cell,
address-of-callback-array, size-of-zero-fill and an unused
characteristics field set to zero, in that order; the four address
fields have the pointer width of the target, while size-of-zero-fill
and characteristics are 32-bit on both targets (so on 32-bit targets
every field is 32-bit, but on 64-bit targets the last two fields are
narrower than a pointer). -/
theorem tls_dir_layout (tlsStart tlsEnd tlsIndex xlA : Nat) :
    List.map TlsField.name tlsDirFields64 =
      [.startAddressOfRawData, .endAddressOfRawData, .addressOfIndex,
       .addressOfCallBacks, .sizeOfZeroFill, .characteristics] ∧
    List.map TlsField.name tlsDirFields32 =
      List.map TlsField.name tlsDirFields64 ∧
    (∀ f ∈ tlsDirFields64.take 4, f.width = ptrWidth64) ∧
    List.map TlsField.width tlsDirFields64 = [64, 64, 64, 64, 32, 32] ∧
    (∀ f ∈ tlsDirFields32, f.width = ptrWidth32) ∧
    (_tls_used tlsStart tlsEnd tlsIndex xlA).characteristics = 0 ∧
    (_tls_used tlsStart tlsEnd tlsIndex xlA).sizeOfZeroFill = 0 :=
  ⟨by decide, by decide, by decide, by decide, by decide, rfl, rfl⟩
